import Mathlib

/-!
Shallow embedding of the symptom-extraction → disease-matching →
severity-escalation core of the `deploy-mlops` medical triage assistant
(`app/nlp_processor.py`, `app/disease_predictor.py`,
`app/severity_manager.py`), together with proofs of the specified
properties.

Modelling conventions:
* Python floats are modelled as exact rationals (`ℚ`); the thresholds
  `0.1` and `0.3` become `1/10` and `3/10`.
* Python dicts (the JSON knowledge base, the urgent-symptom table) are
  modelled as association lists in insertion order, which is Python's
  dict iteration order.
* The sklearn TF-IDF vectorization and cosine-similarity computation,
  the spaCy tokenization/lemmatization pipeline, and `re.search` are
  abstracted as explicit function parameters: they are external library
  calls whose outputs the core merely post-processes.
* Python `str.lower` is modelled by `String.toLower`.
* Fallible constructors / code paths that raise are modelled with
  `Except String`.
-/

namespace MedTriage

/-- Model of Python `str.lower` as used by the core (urgent phrases
and severity tiers in the tables are already lower case): lower each
character.  Structurally recursive phrasing of `String.toLower` so
that concrete instances evaluate inside the kernel. -/
def lowerStr (s : String) : String := ⟨s.data.map Char.toLower⟩

/-- `startsB n h` : the char list `n` is a prefix of `h`. -/
def startsB : List Char → List Char → Bool
  | [], _ => true
  | _ :: _, [] => false
  | a :: as, b :: bs => a == b && startsB as bs

/-- `hasSub n h` : the char list `n` occurs contiguously inside `h`.
Model of Python's `needle in haystack` substring test. -/
def hasSub (needle : List Char) : List Char → Bool
  | [] => needle.isEmpty
  | c :: cs => startsB needle (c :: cs) || hasSub needle cs

/-- Python `needle in haystack` on strings. -/
def substrB (needle hay : String) : Bool := hasSub needle.data hay.data

/-- Model of Python `"\n".join(parts)`. -/
def joinNL : List String → String
  | [] => ""
  | [x] => x
  | x :: y :: t => x ++ "\n" ++ joinNL (y :: t)

/-- Model of Python `" ".join(parts)`. -/
def joinSp : List String → String
  | [] => ""
  | [x] => x
  | x :: y :: t => x ++ " " ++ joinSp (y :: t)

/-- One value of the knowledge-base JSON object: the fields the core
reads (`data.get('symptoms', [])`, `data.get("severity", "inconnue")`).
`none` models an absent JSON field. -/
structure DiseaseRec where
  symptoms : Option (List String)
  severity : Option String
deriving DecidableEq, Repr

/-- The knowledge base: disease name → record, in JSON (= Python dict
insertion) order. -/
abbrev KB := List (String × DiseaseRec)

/-- The fixed urgent-symptom table of `SeverityManager.__init__`
(`app/severity_manager.py` lines 7–25), in insertion order. -/
def urgentSymptomsTable : List (String × String) :=
  [("difficulté à respirer", "URGENT"),
   ("douleur thoracique", "URGENT"),
   ("saignement abondant", "URGENT"),
   ("paralysie", "URGENT"),
   ("perte de conscience", "URGENT"),
   ("brûlure grave", "URGENT"),
   ("crise convulsive", "URGENT"),
   ("douleur abdominale sévère", "URGENT"),
   ("vomissement sang", "URGENT"),
   ("gonflement visage", "URGENT"),
   ("oppression", "URGENT"),
   ("essoufflement", "URGENT"),
   ("sifflement respiratoire", "URGENT"),
   ("faiblesse soudaine", "URGENT"),
   ("trouble de la parole", "URGENT"),
   ("vision trouble soudaine", "URGENT"),
   ("maux de tête violents", "URGENT")]

/-- `SeverityManager.check_symptom_severity`: for each symptom, the
first urgent phrase contained in its lowercased text yields one
`(symptom, level)` entry (the inner `break`). -/
def check_symptom_severity (symptoms : List String) : List (String × String) :=
  symptoms.filterMap (fun symptom =>
    (urgentSymptomsTable.find? (fun u => substrB u.1 (lowerStr symptom))).map
      (fun u => (symptom, u.2)))

/-- `SeverityManager.get_disease_severity`: scan the knowledge base in
order and return the severity of the first disease whose lowercased
name contains the lowercased query as a substring; `"inconnue"` when no
name matches or the matching record has no `severity` field. -/
def get_disease_severity (disease_data : KB) (disease : String) : String :=
  match disease_data.find? (fun e => substrB (lowerStr disease) (lowerStr e.1)) with
  | some e => e.2.severity.getD "inconnue"
  | none => "inconnue"

/-- The fixed lines of the symptom-level emergency directive of
`generate_urgency_alert`, assembled around one bullet per urgent
symptom found, then joined with `"\n"`. -/
def symptomAlertParts (urgent_found : List (String × String)) : List String :=
  ["**ALERTE URGENCE MÉDICALE**\n",
   "**Symptômes urgents détectés :**"]
  ++ urgent_found.map (fun q => "• " ++ q.1 ++ " (" ++ q.2 ++ ")")
  ++ ["\n**ACTION REQUISE :**",
      "1. **COMPOSEZ LE 15 IMMÉDIATEMENT**",
      "2. **Ne conduisez pas** vous-même à l'hôpital",
      "3. **Restez calme** et suivez les instructions",
      "4. **Prévenez quelqu'un** de votre situation",
      "5. **Préparez vos papiers** d'identité et carte vitale"]

/-- The disease-level advisory string of `generate_urgency_alert`. -/
def diseaseAlertText (disease : String) : String :=
  "**Alerte** : La condition '" ++ disease ++
    "' peut être grave. Consultez un médecin rapidement ou contactez le 15 pour avis."

/-- The per-prediction test of the disease-level loop: confidence
strictly above `0.3` and severity tier `"urgente"` or `"critique"`
(severity looked up only after the threshold test, mirroring the nested
`if`s). -/
def qualifies (disease_data : KB) (p : String × ℚ) : Bool :=
  decide ((3 : ℚ)/10 < p.2) &&
    (get_disease_severity disease_data p.1 == "urgente" ||
     get_disease_severity disease_data p.1 == "critique")

/-- `SeverityManager.generate_urgency_alert`: symptom-level check
first; if any urgent symptom was found, emit the emergency directive
and never look at `predictions`; otherwise return the advisory for the
first prediction passing `qualifies`, or `""`. -/
def generate_urgency_alert (disease_data : KB) (symptoms : List String)
    (predictions : List (String × ℚ)) : String :=
  match check_symptom_severity symptoms with
  | [] =>
    match predictions.find? (qualifies disease_data) with
    | some p => diseaseAlertText p.1
    | none => ""
  | u :: us => joinNL (symptomAlertParts (u :: us))

/-! ## Disease predictor (`app/disease_predictor.py`) -/

/-- Stable descending insertion by score: insert `p` after the strictly
greater scores, before equal ones. Python's `list.sort(key=lambda x:
x[1], reverse=True)` is a stable descending sort by score, and a stable
sort's output is uniquely determined, so any stable descending sort
models it. -/
def insertDesc (p : String × ℚ) : List (String × ℚ) → List (String × ℚ)
  | [] => [p]
  | q :: qs => if p.2 < q.2 then q :: insertDesc p qs else p :: q :: qs

/-- Stable descending sort by score: the model of
`filtered_scores.sort(key=lambda x: x[1], reverse=True)`. -/
def sortDesc : List (String × ℚ) → List (String × ℚ)
  | [] => []
  | x :: xs => insertDesc x (sortDesc xs)

/-- `DiseasePredictor.predict_diseases`.  The state of a constructed
predictor is `diseases` (the knowledge-base keys, in order) and
`compute` (the fitted `vectorizer.transform` + `cosine_similarity`
pipeline: joined user text ↦ one similarity per disease; `none` models
an exception caught by the `try`/`except`, which returns `[]`). -/
def predict_diseases (diseases : List String)
    (compute : String → Option (List ℚ)) (user_symptoms : List String) :
    List (String × ℚ) :=
  if user_symptoms.isEmpty then []
  else
    match compute (joinSp user_symptoms) with
    | none => []
    | some sims =>
      let disease_scores := diseases.zip sims
      let filtered_scores :=
        disease_scores.filter (fun p => decide ((1 : ℚ)/10 < p.2))
      (sortDesc filtered_scores).take 5

/-- The state built by `DiseasePredictor.__init__` (the fitted
vectorizer itself is external; `predict_diseases` receives it as the
`compute` parameter). -/
structure Predictor where
  disease_data : KB
  diseases : List String
  symptom_descriptions : List String
deriving DecidableEq, Repr

/-- `DiseasePredictor.__init__`: missing file raises
`FileNotFoundError("Fichier … non trouvé")`; a JSON decode failure in
`json.load` propagates; otherwise the keys and joined per-disease
symptom descriptions are stored.  `fs` models the file system
(`os.path.exists` + `open().read()`), `parse` models `json.load`. -/
def diseasePredictorInit (fs : String → Option String)
    (parse : String → Option KB) (data_path : String) :
    Except String Predictor :=
  match fs data_path with
  | none => .error ("Fichier " ++ data_path ++ " non trouvé")
  | some txt =>
    match parse txt with
    | none => .error "JSONDecodeError"
    | some kb =>
      .ok { disease_data := kb
            diseases := kb.map (fun e => e.1)
            symptom_descriptions :=
              kb.map (fun e => joinSp (e.2.symptoms.getD [])) }

/-- The state built by `SeverityManager.__init__`: the urgent table is
fixed; a missing or undecodable knowledge-base file degrades to an
empty `disease_data` (both exceptions are caught). -/
structure SeverityState where
  urgent_symptoms : List (String × String)
  disease_data : KB
deriving DecidableEq, Repr

/-- `SeverityManager.__init__`. -/
def severityManagerInit (fs : String → Option String)
    (parse : String → Option KB) (data_path : String) : SeverityState :=
  { urgent_symptoms := urgentSymptomsTable
    disease_data :=
      match fs data_path with
      | none => []
      | some txt => (parse txt).getD [] }

/-! ## NLP processor (`app/nlp_processor.py`)

The spaCy pipeline (lines 45–57 of `preprocess_text`: lowercasing,
punctuation stripping, stopword removal, lemmatization) and `re.search`
are external; they enter as the parameters `tok` (cleaned text ↦ lemma
tokens) and `rgx` (regex source, text ↦ match found?). -/

/-- A Python value passed to `extract_symptoms`: the spec discusses
strings, `None`-like input and non-string input. -/
inductive PyVal where
  | vstr (s : String)
  | vnone
  | vint (n : Int)
deriving DecidableEq, Repr

/-- Python truthiness of a `PyVal` (the `if not text:` guard). -/
def truthy : PyVal → Bool
  | .vstr s => !s.isEmpty
  | .vnone => false
  | .vint n => n != 0

/-- `NLPProcessor.preprocess_text`: empty or non-string input yields
`[]`; otherwise the spaCy tokenization of the cleaned text. -/
def preprocess_text (tok : String → List String) : PyVal → List String
  | .vstr s => if s.isEmpty then [] else tok s
  | _ => []

/-- The `medical_patterns` table of `extract_symptoms` (pattern →
required keyword stems), in insertion order. -/
def medical_patterns : List (String × List String) :=
  [("mal de gorge", ["gorge", "mal"]),
   ("nez qui coule", ["nez", "couler"]),
   ("nez bouché", ["nez", "bouché"]),
   ("maux de tête", ["tête", "mal", "migraine"]),
   ("courbatures", ["courbature"]),
   ("nausées", ["nausée"]),
   ("vomissements", ["vomissement"]),
   ("fièvre", ["fièvre"]),
   ("toux", ["toux"]),
   ("fatigue", ["fatigue"]),
   ("difficulté à respirer", ["respiration", "difficulté", "essoufflement"]),
   ("essoufflement", ["essoufflement"]),
   ("oppression thoracique", ["oppression", "thoracique"]),
   ("douleur thoracique", ["thoracique", "douleur"]),
   ("yeux qui piquent", ["yeux", "piquer"]),
   ("démangeaisons", ["démangeaison"]),
   ("douleur abdominale", ["abdominal", "douleur"]),
   ("douleur faciale", ["facial", "douleur"]),
   ("frissons", ["frisson"]),
   ("diarrhée", ["diarrhée"]),
   ("ganglions", ["ganglion"]),
   ("enrouement", ["enrouement"]),
   ("perte de voix", ["voix", "perte"]),
   ("douleur oreille", ["oreille", "douleur"]),
   ("baisse audition", ["audition", "baisse"]),
   ("saignement abondant", ["saignement", "abondant"]),
   ("paralysie", ["paralysie"]),
   ("crise convulsive", ["convulsive", "crise"]),
   ("brûlure grave", ["brûlure", "grave"]),
   ("brûlures urinaires", ["urinaire", "brûlure"]),
   ("douleur articulation", ["articulation", "douleur"]),
   ("raideur", ["raideur"]),
   ("vertiges", ["vertige"]),
   ("étourdissements", ["étourdissement"]),
   ("palpitations", ["palpitation"]),
   ("transpiration excessive", ["transpiration", "excessive"]),
   ("perte de conscience", ["conscience", "perte"]),
   ("trouble de la vision", ["vision", "trouble"]),
   ("trouble de l'équilibre", ["équilibre", "trouble"])]

/-- The flat `medical_terms` vocabulary of `NLPProcessor.__init__`
(duplicate literals of the Python set literal collapse, as in a set). -/
def medical_terms : List String :=
  ["gorge", "fièvre", "toux", "fatigue", "nez", "courbature",
   "tête", "nausée", "vomissement", "douleur", "mal", "frisson",
   "éternuement", "rhume", "grippe", "angine", "migraine", "gastro",
   "diarrhée", "respiration", "allergie", "démangeaison", "yeux",
   "abdominal", "facial", "sinus", "blocage", "ganglion", "enrouement",
   "oreille", "audition", "thoracique", "saignement", "paralysie",
   "convulsion", "brûlure", "urinaire", "articulation", "raideur",
   "essoufflement", "oppression", "sifflement", "transpiration",
   "vertige", "étourdissement", "palpitation", "crampe", "engourdissement",
   "picotement", "faiblesse", "perte", "vision", "auditif", "olfactif",
   "goût", "équilibre", "coordination", "mémoire", "concentration",
   "sommeil", "appétit", "soif", "urine", "selles", "constipation",
   "ballonnement", "flatulence", "reflux", "acidité",
   "plaie", "coupure", "ecchymose", "gonflement", "rougeur", "chaleur",
   "desquamation", "bouton", "éruption", "rougeole",
   "varicelle", "urticaire", "eczéma", "psoriasis"]

/-- `NLPProcessor.get_symptom_name_from_token`: `symptom_map.get(token,
token)`. -/
def get_symptom_name_from_token (token : String) : String :=
  let symptom_map : List (String × String) :=
    [("fièvre", "fièvre"), ("toux", "toux"), ("fatigue", "fatigue"),
     ("nausée", "nausées"), ("vomissement", "vomissements"),
     ("frisson", "frissons"), ("diarrhée", "diarrhée"),
     ("démangeaison", "démangeaisons"), ("courbature", "courbatures"),
     ("vertige", "vertiges"), ("palpitation", "palpitations")]
  ((symptom_map.find? (fun e => e.1 == token)).map (fun e => e.2)).getD token

/-- The `regex_patterns` table of `extract_symptoms` (regex source →
qualifier label), in insertion order.  The regexes themselves are
evaluated by the abstract `rgx` parameter. -/
def regex_patterns : List (String × String) :=
  [("température.*?(\\d+[.,]?\\d*)", "fièvre"),
   ("fièvre.*?(\\d+[.,]?\\d*)", "fièvre avec température"),
   ("depuis.*?(\\d+).*?(heure|jour|semaine)", "durée spécifiée"),
   ("douleur.*?(forte|sévère|intense)", "douleur sévère"),
   ("douleur.*?(légère|modérée)", "douleur modérée")]

/-- Pass 1 of `extract_symptoms`: literal phrase search in the
lowercased original text. -/
def pass1 (text_lower : String) (acc : List String) : List String :=
  medical_patterns.foldl
    (fun a pr => if substrB pr.1 text_lower then a ++ [pr.1] else a) acc

/-- Pass 2: keyword-stem combination over the lemma tokens, skipping
patterns already detected. -/
def pass2 (tokens : List String) (acc : List String) : List String :=
  medical_patterns.foldl
    (fun a pr =>
      if a.contains pr.1 then a
      else if pr.2.all (fun kw => tokens.any (fun t => substrB kw t)) then
        a ++ [pr.1]
      else a) acc

/-- Pass 3: isolated medical-term tokens mapped through the token →
canonical-label table. -/
def pass3 (tokens : List String) (acc : List String) : List String :=
  tokens.foldl
    (fun a t =>
      if medical_terms.contains t then
        let name := get_symptom_name_from_token t
        if !name.isEmpty && !a.contains name then a ++ [name] else a
      else a) acc

/-- Pass 4: regex qualifier patterns over the lowercased text. -/
def pass4 (rgx : String → String → Bool) (text_lower : String)
    (acc : List String) : List String :=
  regex_patterns.foldl
    (fun a rp =>
      if rgx rp.1 text_lower then
        if a.contains rp.2 then a else a ++ [rp.2]
      else a) acc

/-- Model of Python `list(set(l))`: some duplicate-free enumeration of
the elements (the set's iteration order is unspecified). -/
def listSet (l : List String) : List String := l.dedup

/-- `NLPProcessor.extract_symptoms` on a string already past the
truthiness guard. -/
def extract_symptoms_str (tok : String → List String)
    (rgx : String → String → Bool) (text : String) : List String :=
  let tokens := preprocess_text tok (.vstr text)
  let text_lower := lowerStr text
  listSet (pass4 rgx text_lower (pass3 tokens (pass2 tokens (pass1 text_lower []))))

/-- `NLPProcessor.extract_symptoms` on an arbitrary Python value:
falsy input returns `[]`; a truthy non-string passes the guard and the
(non-string-tolerant) `preprocess_text`, then raises `AttributeError`
at `text.lower()`. -/
def extract_symptoms (tok : String → List String)
    (rgx : String → String → Bool) (text : PyVal) :
    Except String (List String) :=
  if !truthy text then .ok []
  else
    match text with
    | .vstr s => .ok (extract_symptoms_str tok rgx s)
    | _ => .error "AttributeError"

/-! ## Helper lemmas -/

theorem find?_append_of_none {α : Type} {f : α → Bool} {pre : List α} (l : List α)
    (h : ∀ e ∈ pre, f e = false) : List.find? f (pre ++ l) = List.find? f l := by
  induction pre with
  | nil => rfl
  | cons a as ih =>
    have ha : f a = false := h a (by simp)
    show List.find? f (a :: (as ++ l)) = _
    rw [List.find?_cons, ha]
    exact ih (fun e he => h e (by simp [he]))

theorem insertDesc_perm (p : String × ℚ) :
    ∀ l, List.Perm (insertDesc p l) (p :: l)
  | [] => List.Perm.refl _
  | q :: qs => by
    unfold insertDesc
    by_cases h : p.2 < q.2
    · rw [if_pos h]
      exact (List.Perm.cons q (insertDesc_perm p qs)).trans (List.Perm.swap p q qs)
    · rw [if_neg h]

theorem insertDesc_pairwise (p : String × ℚ) :
    ∀ l, List.Pairwise (fun a b => b.2 ≤ a.2) l →
      List.Pairwise (fun a b => b.2 ≤ a.2) (insertDesc p l)
  | [], _ => List.Pairwise.cons (by intro b hb; cases hb) List.Pairwise.nil
  | q :: qs, h => by
    obtain ⟨hq, hqs⟩ := List.pairwise_cons.mp h
    unfold insertDesc
    by_cases hlt : p.2 < q.2
    · rw [if_pos hlt]
      refine List.pairwise_cons.mpr ⟨?_, insertDesc_pairwise p qs hqs⟩
      intro b hb
      rcases List.mem_cons.mp ((insertDesc_perm p qs).mem_iff.mp hb) with hb1 | hb1
      · exact hb1 ▸ le_of_lt hlt
      · exact hq b hb1
    · rw [if_neg hlt]
      refine List.pairwise_cons.mpr ⟨?_, h⟩
      intro b hb
      rcases List.mem_cons.mp hb with hb' | hb'
      · exact hb' ▸ le_of_not_lt hlt
      · exact le_trans (hq b hb') (le_of_not_lt hlt)

theorem insertDesc_filter_eq (c : ℚ) (p : String × ℚ) (hp : p.2 = c) :
    ∀ l, (insertDesc p l).filter (fun q => q.2 == c) =
      p :: l.filter (fun q => q.2 == c)
  | [] => by simp [insertDesc, List.filter_cons, hp]
  | q :: qs => by
    unfold insertDesc
    by_cases h : p.2 < q.2
    · have hq : (q.2 == c) = false :=
        beq_eq_false_iff_ne.mpr (by rw [← hp]; exact ne_of_gt h)
      rw [if_pos h]
      simp [List.filter_cons, hq, insertDesc_filter_eq c p hp qs]
    · have hpc : (p.2 == c) = true := beq_iff_eq.mpr hp
      rw [if_neg h]
      simp [List.filter_cons, hpc]

theorem insertDesc_filter_ne (c : ℚ) (p : String × ℚ) (hp : p.2 ≠ c) :
    ∀ l, (insertDesc p l).filter (fun q => q.2 == c) =
      l.filter (fun q => q.2 == c)
  | [] => by
    have hpc : (p.2 == c) = false := beq_eq_false_iff_ne.mpr hp
    simp [insertDesc, List.filter_cons, hpc]
  | q :: qs => by
    unfold insertDesc
    by_cases h : p.2 < q.2
    · rw [if_pos h]
      simp [List.filter_cons, insertDesc_filter_ne c p hp qs]
    · have hpc : (p.2 == c) = false := beq_eq_false_iff_ne.mpr hp
      rw [if_neg h]
      simp [List.filter_cons, hpc]

theorem sortDesc_perm : ∀ l, List.Perm (sortDesc l) l
  | [] => List.Perm.refl _
  | x :: xs =>
    (insertDesc_perm x (sortDesc xs)).trans (List.Perm.cons x (sortDesc_perm xs))

theorem sortDesc_pairwise :
    ∀ l, List.Pairwise (fun a b : String × ℚ => b.2 ≤ a.2) (sortDesc l)
  | [] => List.Pairwise.nil
  | x :: xs => insertDesc_pairwise x (sortDesc xs) (sortDesc_pairwise xs)

theorem sortDesc_filter (c : ℚ) :
    ∀ l, (sortDesc l).filter (fun q => q.2 == c) = l.filter (fun q => q.2 == c)
  | [] => rfl
  | x :: xs => by
    show (insertDesc x (sortDesc xs)).filter _ = _
    by_cases h : x.2 = c
    · rw [insertDesc_filter_eq c x h, sortDesc_filter c xs]
      simp [List.filter_cons, beq_iff_eq.mpr h]
    · rw [insertDesc_filter_ne c x h, sortDesc_filter c xs]
      simp [List.filter_cons, beq_eq_false_iff_ne.mpr h]

theorem map_fst_zip_sublist :
    ∀ (l1 : List String) (l2 : List ℚ),
      List.Sublist ((l1.zip l2).map Prod.fst) l1
  | [], _ => by simp
  | _ :: _, [] => by simp
  | a :: as, b :: bs => by
    show List.Sublist (a :: (as.zip bs).map Prod.fst) (a :: as)
    exact (map_fst_zip_sublist as bs).cons₂ a

theorem hasSub_nil (l : List Char) : hasSub [] l = true := by
  cases l <;> rfl

theorem startsB_self_append : ∀ (n suf : List Char), startsB n (n ++ suf) = true
  | [], _ => rfl
  | a :: as, suf => by
    show (a == a && startsB as (as ++ suf)) = true
    rw [beq_self_eq_true, Bool.true_and]
    exact startsB_self_append as suf

theorem hasSub_self_append : ∀ (n suf : List Char), hasSub n (n ++ suf) = true
  | [], suf => hasSub_nil suf
  | a :: as, suf => by
    have h1 : startsB (a :: as) ((a :: as) ++ suf) = true :=
      startsB_self_append (a :: as) suf
    show (startsB (a :: as) ((a :: as) ++ suf) || hasSub (a :: as) (as ++ suf)) = true
    rw [h1, Bool.true_or]

theorem hasSub_of_parts :
    ∀ (pre n suf : List Char), hasSub n (pre ++ n ++ suf) = true
  | [], n, suf => hasSub_self_append n suf
  | c :: pre, n, suf => by
    show (startsB n (c :: (pre ++ n ++ suf)) || hasSub n (pre ++ n ++ suf)) = true
    rw [hasSub_of_parts pre n suf, Bool.or_true]

theorem joinNL_mem_split {p : String} :
    ∀ {parts : List String}, p ∈ parts →
      ∃ pre suf, (joinNL parts).data = pre ++ p.data ++ suf
  | [], h => absurd h (List.not_mem_nil p)
  | [x], h => by
    have hx : p = x := by simpa using h
    exact ⟨[], [], by simp [joinNL, hx]⟩
  | x :: y :: t, h => by
    rcases List.mem_cons.mp h with hx | hyt
    · refine ⟨[], ("\n" ++ joinNL (y :: t)).data, ?_⟩
      show (x ++ "\n" ++ joinNL (y :: t)).data = [] ++ p.data ++ _
      rw [String.data_append, String.data_append, String.data_append, hx]
      simp
    · obtain ⟨pre, suf, hd⟩ := joinNL_mem_split hyt
      refine ⟨(x ++ "\n").data ++ pre, suf, ?_⟩
      show (x ++ "\n" ++ joinNL (y :: t)).data = _
      rw [String.data_append, hd]
      simp

theorem hasSub_joinNL {p : String} {parts : List String} (h : p ∈ parts) :
    hasSub p.data (joinNL parts).data = true := by
  obtain ⟨pre, suf, hd⟩ := joinNL_mem_split h
  rw [hd]
  exact hasSub_of_parts pre _ suf

theorem data_take_of_append (a b : String) (n : Nat) (h : n ≤ a.data.length) :
    (a ++ b).data.take n = a.data.take n := by
  rw [String.data_append]
  exact List.take_append_of_le_length h

theorem symptomAlert_ne_diseaseAlert (u : List (String × String)) (d : String) :
    joinNL (symptomAlertParts u) ≠ diseaseAlertText d := by
  intro heq
  have hL : (joinNL (symptomAlertParts u)).data.take 4 = ['*', '*', 'A', 'L'] := by
    have e1 : joinNL (symptomAlertParts u) =
        ("**ALERTE URGENCE MÉDICALE**\n" ++ "\n") ++
          joinNL ("**Symptômes urgents détectés :**" ::
            (u.map (fun q => "• " ++ q.1 ++ " (" ++ q.2 ++ ")") ++
             ["\n**ACTION REQUISE :**",
              "1. **COMPOSEZ LE 15 IMMÉDIATEMENT**",
              "2. **Ne conduisez pas** vous-même à l'hôpital",
              "3. **Restez calme** et suivez les instructions",
              "4. **Prévenez quelqu'un** de votre situation",
              "5. **Préparez vos papiers** d'identité et carte vitale"])) := rfl
    rw [e1, data_take_of_append _ _ 4 (by decide)]
    decide
  have hR : (diseaseAlertText d).data.take 4 = ['*', '*', 'A', 'l'] := by
    show (("**Alerte** : La condition '" ++ d) ++
        "' peut être grave. Consultez un médecin rapidement ou contactez le 15 pour avis.").data.take 4 = _
    rw [String.append_assoc, data_take_of_append _ _ 4 (by decide)]
    decide
  rw [heq, hR] at hL
  exact absurd hL (by decide)

/-- C2: whenever some symptom contains an urgent phrase of the fixed
table as a substring, `generate_urgency_alert` returns exactly the
symptom-level emergency directive; that directive enumerates every
urgent symptom found (each match appears in `check_symptom_severity`
and its bullet line occurs in the output text); the output does not
depend on the `predictions` argument; and it is never the
disease-level advisory. -/
theorem urgency_symptom_precedence_C2 (dd : KB) (symptoms : List String)
    (predictions : List (String × ℚ))
    (h : ∃ s ∈ symptoms, ∃ u ∈ urgentSymptomsTable, substrB u.1 (lowerStr s) = true) :
    generate_urgency_alert dd symptoms predictions =
      joinNL (symptomAlertParts (check_symptom_severity symptoms))
    ∧ (∀ s, s ∈ symptoms →
        (∃ u ∈ urgentSymptomsTable, substrB u.1 (lowerStr s) = true) →
        ∃ lvl, (s, lvl) ∈ check_symptom_severity symptoms)
    ∧ (∀ s lvl, (s, lvl) ∈ check_symptom_severity symptoms →
        hasSub ("• " ++ s ++ " (" ++ lvl ++ ")").data
          (generate_urgency_alert dd symptoms predictions).data = true)
    ∧ (∀ predictions', generate_urgency_alert dd symptoms predictions' =
        generate_urgency_alert dd symptoms predictions)
    ∧ (∀ d, generate_urgency_alert dd symptoms predictions ≠ diseaseAlertText d) := by
  have hmem : ∀ s, s ∈ symptoms →
      (∃ u ∈ urgentSymptomsTable, substrB u.1 (lowerStr s) = true) →
      ∃ lvl, (s, lvl) ∈ check_symptom_severity symptoms := by
    intro s hs hu
    have hfind : (urgentSymptomsTable.find?
        (fun u => substrB u.1 (lowerStr s))).isSome := by
      rw [List.find?_isSome]
      obtain ⟨u, h1, h2⟩ := hu
      exact ⟨u, h1, h2⟩
    obtain ⟨u0, hu0⟩ := Option.isSome_iff_exists.mp hfind
    exact ⟨u0.2, List.mem_filterMap.mpr ⟨s, hs, by rw [hu0]; rfl⟩⟩
  obtain ⟨s0, hs0, hu0⟩ := h
  obtain ⟨lvl0, hl0⟩ := hmem s0 hs0 hu0
  have hnil : check_symptom_severity symptoms ≠ [] := List.ne_nil_of_mem hl0
  obtain ⟨u, us, hc⟩ := List.exists_cons_of_ne_nil hnil
  have hgen : ∀ preds : List (String × ℚ),
      generate_urgency_alert dd symptoms preds =
        joinNL (symptomAlertParts (check_symptom_severity symptoms)) := by
    intro preds
    unfold generate_urgency_alert
    rw [hc]
  refine ⟨hgen predictions, hmem, ?_, ?_, ?_⟩
  · intro s lvl hsl
    rw [hgen predictions]
    have hline : ("• " ++ s ++ " (" ++ lvl ++ ")") ∈
        symptomAlertParts (check_symptom_severity symptoms) := by
      unfold symptomAlertParts
      refine List.mem_append.mpr (Or.inl ?_)
      exact List.mem_append.mpr (Or.inr (List.mem_map.mpr ⟨(s, lvl), hsl, rfl⟩))
    exact hasSub_joinNL hline
  · intro preds'
    rw [hgen preds', hgen predictions]
  · intro d
    rw [hgen predictions, hc]
    exact symptomAlert_ne_diseaseAlert (u :: us) d

/-- Witness for C2 at a concrete input: the symptom `"oppression"` is
itself an urgent phrase, and the alert is the symptom-level directive
regardless of a non-empty prediction list. -/
theorem urgency_symptom_precedence_C2_witness :
    generate_urgency_alert [] ["oppression"] [("grippe", 1)] =
      joinNL (symptomAlertParts (check_symptom_severity ["oppression"])) :=
  (urgency_symptom_precedence_C2 [] ["oppression"] [("grippe", 1)]
    ⟨"oppression", by decide, ("oppression", "URGENT"), by decide, by decide⟩).1

/-- C3: with no urgent symptom found, the first prediction passing
`qualifies` (confidence strictly above `0.3` and severity tier
`"urgente"` or `"critique"`) yields the single-disease advisory;
confidence exactly `0.3` never qualifies; confidence `0.31` with an
urgent/critical tier qualifies; and if no prediction qualifies the
alert is empty. -/
theorem disease_escalation_C3 (dd : KB) (symptoms : List String)
    (pre post : List (String × ℚ)) (p : String × ℚ)
    (hcheck : check_symptom_severity symptoms = [])
    (hpre : ∀ q ∈ pre, qualifies dd q = false)
    (hp : qualifies dd p = true) :
    generate_urgency_alert dd symptoms (pre ++ p :: post) = diseaseAlertText p.1
    ∧ (∀ d : String, qualifies dd (d, (3 : ℚ)/10) = false)
    ∧ (∀ d : String,
        (get_disease_severity dd d = "urgente" ∨
         get_disease_severity dd d = "critique") →
        qualifies dd (d, (31 : ℚ)/100) = true)
    ∧ (∀ preds : List (String × ℚ), (∀ q ∈ preds, qualifies dd q = false) →
        generate_urgency_alert dd symptoms preds = "") := by
  refine ⟨?_, ?_, ?_, ?_⟩
  · unfold generate_urgency_alert
    rw [hcheck, find?_append_of_none _ hpre, List.find?_cons, hp]
  · intro d
    unfold qualifies
    rw [decide_eq_false (lt_irrefl ((3 : ℚ)/10))]
    rfl
  · intro d hsev
    unfold qualifies
    have h1 : decide ((3 : ℚ)/10 < ((d, (31 : ℚ)/100) : String × ℚ).2) = true :=
      decide_eq_true (by norm_num)
    rw [h1]
    rcases hsev with h2 | h2 <;> simp [h2]
  · intro preds hall
    unfold generate_urgency_alert
    rw [hcheck, List.find?_eq_none.mpr (fun q hq => by rw [hall q hq]; simp)]

/-- Witness for C3 at a concrete input: an empty symptom list, one
earlier non-qualifying prediction (score `1` but tier `"modérée"`) and
a qualifying one (`score 1`, tier `"urgente"`). -/
theorem disease_escalation_C3_witness :
    generate_urgency_alert
        [("angine", ⟨none, some "modérée"⟩), ("méningite", ⟨none, some "urgente"⟩)]
        [] [("angine", 1), ("méningite", 1)] =
      diseaseAlertText "méningite" :=
  (disease_escalation_C3
    [("angine", ⟨none, some "modérée"⟩), ("méningite", ⟨none, some "urgente"⟩)]
    [] [("angine", 1)] [] ("méningite", 1) rfl
    (by
      intro q hq
      have hq1 : q = ("angine", (1 : ℚ)) := by simpa using hq
      subst hq1
      unfold qualifies
      have hsev : get_disease_severity
          [("angine", ⟨none, some "modérée"⟩), ("méningite", ⟨none, some "urgente"⟩)]
          "angine" = "modérée" := by decide
      simp [hsev])
    (by
      unfold qualifies
      have hsev : get_disease_severity
          [("angine", ⟨none, some "modérée"⟩), ("méningite", ⟨none, some "urgente"⟩)]
          "méningite" = "urgente" := by decide
      have h1 : decide ((3 : ℚ)/10 < (("méningite", (1 : ℚ)) : String × ℚ).2) = true :=
        decide_eq_true (by norm_num)
      rw [h1, hsev]
      rfl)).1

/-- C6: when the knowledge-base file is absent, constructing the
disease predictor fails with `FileNotFoundError` while the severity
manager is constructed with an empty severity table, on which
`get_disease_severity` answers `"inconnue"` for every query. -/
theorem kb_absent_C6 (fs : String → Option String) (parse : String → Option KB)
    (path : String) (h : fs path = none) :
    diseasePredictorInit fs parse path =
      Except.error ("Fichier " ++ path ++ " non trouvé")
    ∧ (severityManagerInit fs parse path).disease_data = []
    ∧ ∀ d, get_disease_severity (severityManagerInit fs parse path).disease_data d
        = "inconnue" := by
  have h2 : (severityManagerInit fs parse path).disease_data = [] := by
    simp [severityManagerInit, h]
  refine ⟨?_, h2, ?_⟩
  · unfold diseasePredictorInit
    rw [h]
  · intro d
    rw [h2]
    rfl

/-- Witness for C6 on a concrete absent file. -/
theorem kb_absent_C6_witness :
    diseasePredictorInit (fun _ => none) (fun _ => none) "data/symptoms_diseases.json" =
      Except.error "Fichier data/symptoms_diseases.json non trouvé"
    ∧ get_disease_severity
        (severityManagerInit (fun _ => none) (fun _ => none)
          "data/symptoms_diseases.json").disease_data "grippe" = "inconnue" :=
  ⟨(kb_absent_C6 (fun _ => none) (fun _ => none) "data/symptoms_diseases.json" rfl).1,
   (kb_absent_C6 (fun _ => none) (fun _ => none) "data/symptoms_diseases.json" rfl).2.2
     "grippe"⟩

/-- C7: `get_disease_severity` matches by substring containment of the
lowercased query in the lowercased stored names, not by exact key
equality: the first stored name containing the query decides the
result, whether or not the query equals it. -/
theorem severity_substring_lookup_C7 (pre post : KB) (name : String)
    (rec : DiseaseRec) (q : String)
    (hpre : ∀ e ∈ pre, substrB (lowerStr q) (lowerStr e.1) = false)
    (hmatch : substrB (lowerStr q) (lowerStr name) = true) :
    get_disease_severity (pre ++ (name, rec) :: post) q =
      rec.severity.getD "inconnue" := by
  unfold get_disease_severity
  rw [find?_append_of_none _ hpre, List.find?_cons, hmatch]

/-- Witness for C7: the query `"grippe"` is a proper substring of the
stored name `"grippe saisonnière"` and retrieves its tier. -/
theorem severity_substring_lookup_C7_witness :
    get_disease_severity [("grippe saisonnière", ⟨none, some "modérée"⟩)] "grippe"
      = "modérée" :=
  severity_substring_lookup_C7 [] [] "grippe saisonnière"
    ⟨none, some "modérée"⟩ "grippe" (by intro e he; cases he) (by decide)

/-- C9: on a non-empty knowledge base, the empty query matches the
first stored disease (the empty string is a substring of every name),
and in general the first stored name containing the query wins even
when a later one also contains it. -/
theorem severity_first_match_C9 (name : String) (rec : DiseaseRec) (rest : KB) :
    get_disease_severity ((name, rec) :: rest) "" = rec.severity.getD "inconnue"
    ∧ ∀ (pre mid post : KB) (n1 n2 : String) (r1 r2 : DiseaseRec) (q : String),
        (∀ e ∈ pre, substrB (lowerStr q) (lowerStr e.1) = false) →
        substrB (lowerStr q) (lowerStr n1) = true →
        substrB (lowerStr q) (lowerStr n2) = true →
        get_disease_severity (pre ++ ((n1, r1) :: (mid ++ ((n2, r2) :: post)))) q
          = r1.severity.getD "inconnue" := by
  constructor
  · unfold get_disease_severity
    have hm : substrB (lowerStr "") (lowerStr name) = true := hasSub_nil _
    rw [List.find?_cons, hm]
  · intro pre mid post n1 n2 r1 r2 q hpre h1 _h2
    unfold get_disease_severity
    rw [find?_append_of_none _ hpre, List.find?_cons, h1]

/-- Witness for C9: both stored names contain `"grippe"`; the first in
iteration order wins; the empty query returns the head's tier. -/
theorem severity_first_match_C9_witness :
    get_disease_severity
      [("grippe saisonnière", ⟨none, some "modérée"⟩),
       ("grippe aviaire", ⟨none, some "critique"⟩)] "" = "modérée"
    ∧ get_disease_severity
      [("grippe saisonnière", ⟨none, some "modérée"⟩),
       ("grippe aviaire", ⟨none, some "critique"⟩)] "grippe" = "modérée" :=
  ⟨(severity_first_match_C9 "grippe saisonnière" ⟨none, some "modérée"⟩
      [("grippe aviaire", ⟨none, some "critique"⟩)]).1,
   (severity_first_match_C9 "grippe saisonnière" ⟨none, some "modérée"⟩
      [("grippe aviaire", ⟨none, some "critique"⟩)]).2
     [] [] [] "grippe saisonnière" "grippe aviaire"
     ⟨none, some "modérée"⟩ ⟨none, some "critique"⟩ "grippe"
     (by intro e he; cases he) (by decide) (by decide)⟩

/-- C1: on a non-empty symptom list whose similarity computation
succeeds with scores bounded by `1` (the mathematical range of cosine
similarity), `predict_diseases` returns a list sorted in non-increasing
score order, of length at most `5`, with every score in `(0.1, 1]`;
the sort is stable: for each score value the output entries are a
prefix of the filtered list in original disease iteration order. -/
theorem predict_diseases_shape_C1 (diseases : List String)
    (compute : String → Option (List ℚ)) (us : List String) (sims : List ℚ)
    (hne : us ≠ []) (hc : compute (joinSp us) = some sims)
    (hb : ∀ x ∈ sims, x ≤ 1) :
    List.Pairwise (fun a b : String × ℚ => b.2 ≤ a.2)
      (predict_diseases diseases compute us)
    ∧ (predict_diseases diseases compute us).length ≤ 5
    ∧ (∀ p ∈ predict_diseases diseases compute us, (1 : ℚ)/10 < p.2 ∧ p.2 ≤ 1)
    ∧ ∀ c : ℚ, ∃ t,
        (predict_diseases diseases compute us).filter (fun p => p.2 == c) ++ t =
          ((diseases.zip sims).filter
            (fun p => decide ((1 : ℚ)/10 < p.2))).filter (fun p => p.2 == c) := by
  have hemp : us.isEmpty = false := by
    cases us with
    | nil => exact absurd rfl hne
    | cons a l => rfl
  have heq : predict_diseases diseases compute us =
      (sortDesc ((diseases.zip sims).filter
        (fun p => decide ((1 : ℚ)/10 < p.2)))).take 5 := by
    unfold predict_diseases
    rw [hemp, hc]
    rfl
  set filtered := (diseases.zip sims).filter (fun p => decide ((1 : ℚ)/10 < p.2))
    with hf
  refine ⟨?_, ?_, ?_, ?_⟩
  · rw [heq]
    exact List.Pairwise.sublist (List.take_sublist 5 _) (sortDesc_pairwise filtered)
  · rw [heq]
    exact List.length_take_le 5 _
  · intro p hp
    rw [heq] at hp
    have hp1 : p ∈ sortDesc filtered := (List.take_sublist 5 _).subset hp
    have hp2 : p ∈ filtered := (sortDesc_perm filtered).subset hp1
    obtain ⟨hpz, hpd⟩ := List.mem_filter.mp hp2
    refine ⟨of_decide_eq_true hpd, ?_⟩
    obtain ⟨a, b⟩ := p
    exact hb b (List.of_mem_zip hpz).2
  · intro c
    refine ⟨(List.drop 5 (sortDesc filtered)).filter (fun p => p.2 == c), ?_⟩
    rw [heq, ← List.filter_append, List.take_append_drop, sortDesc_filter]

/-- Witness for C1 at a concrete predictor state and symptom list. -/
theorem predict_diseases_shape_C1_witness :
    List.Pairwise (fun a b : String × ℚ => b.2 ≤ a.2)
      (predict_diseases ["grippe", "rhume"] (fun _ => some [1, 1]) ["fièvre"])
    ∧ (predict_diseases ["grippe", "rhume"] (fun _ => some [1, 1])
        ["fièvre"]).length ≤ 5 :=
  ⟨(predict_diseases_shape_C1 ["grippe", "rhume"] (fun _ => some [1, 1])
      ["fièvre"] [1, 1] (by decide) rfl
      (by intro x hx
          have hx1 : x = 1 := by simpa using hx
          exact hx1.le)).1,
   (predict_diseases_shape_C1 ["grippe", "rhume"] (fun _ => some [1, 1])
      ["fièvre"] [1, 1] (by decide) rfl
      (by intro x hx
          have hx1 : x = 1 := by simpa using hx
          exact hx1.le)).2.1⟩

/-- C5: `predict_diseases` on an empty symptom list is `[]` for every
similarity pipeline (the guard fires before any vector computation),
and a failing vectorization/similarity computation (the `except`
branch) also yields `[]` rather than an error. -/
theorem predict_empty_or_failure_C5 (diseases : List String)
    (compute : String → Option (List ℚ)) :
    (∀ compute' : String → Option (List ℚ),
      predict_diseases diseases compute' [] = [])
    ∧ ∀ us, compute (joinSp us) = none →
        predict_diseases diseases compute us = [] := by
  refine ⟨fun _ => rfl, ?_⟩
  intro us h
  cases us with
  | nil => rfl
  | cons a l =>
    unfold predict_diseases
    rw [h]
    rfl

/-- Witness for C5: a predictor whose similarity computation always
fails returns `[]` on a non-empty symptom list. -/
theorem predict_empty_or_failure_C5_witness :
    predict_diseases ["grippe"] (fun _ => none) ["toux"] = [] :=
  (predict_empty_or_failure_C5 ["grippe"] (fun _ => none)).2 ["toux"] rfl

/-- C8: `predict_diseases` is deterministic: with the same constructed
predictor state (disease list and fitted similarity pipeline), two
calls on identical symptom lists return identical output. -/
theorem predict_deterministic_C8 (diseases : List String)
    (compute : String → Option (List ℚ)) (us1 us2 : List String)
    (h : us1 = us2) :
    predict_diseases diseases compute us1 =
      predict_diseases diseases compute us2 := by
  rw [h]

/-- Witness for C8 at a concrete double call. -/
theorem predict_deterministic_C8_witness :
    predict_diseases ["grippe"] (fun _ => some [1]) ["toux"] =
      predict_diseases ["grippe"] (fun _ => some [1]) ["toux"] :=
  predict_deterministic_C8 ["grippe"] (fun _ => some [1]) ["toux"] ["toux"] rfl

/-- C10: with a constructed predictor whose knowledge-base keys are
distinct (JSON object keys are unique), every disease name in the
output of `predict_diseases` is a knowledge-base key, and no disease
name appears twice in the output. -/
theorem predict_diseases_keys_C10 (fs : String → Option String)
    (parse : String → Option KB) (path : String) (P : Predictor)
    (hinit : diseasePredictorInit fs parse path = Except.ok P)
    (hnd : (P.disease_data.map (fun e => e.1)).Nodup)
    (compute : String → Option (List ℚ)) (us : List String) :
    (∀ p ∈ predict_diseases P.diseases compute us,
      p.1 ∈ P.disease_data.map (fun e => e.1))
    ∧ ((predict_diseases P.diseases compute us).map (fun p => p.1)).Nodup := by
  have hkeys : P.diseases = P.disease_data.map (fun e => e.1) := by
    cases hfs : fs path with
    | none => simp [diseasePredictorInit, hfs] at hinit
    | some txt =>
      cases hparse : parse txt with
      | none => simp [diseasePredictorInit, hfs, hparse] at hinit
      | some kb =>
        simp [diseasePredictorInit, hfs, hparse] at hinit
        rw [← hinit]
  have hnd' : P.diseases.Nodup := hkeys ▸ hnd
  have main : ∀ (D : List String), D.Nodup →
      (∀ p ∈ predict_diseases D compute us, p.1 ∈ D)
      ∧ ((predict_diseases D compute us).map (fun p => p.1)).Nodup := by
    intro D hD
    cases hemp : us.isEmpty with
    | true =>
      have : predict_diseases D compute us = [] := by
        unfold predict_diseases
        rw [hemp]
        rfl
      rw [this]
      exact ⟨fun p hp => absurd hp (List.not_mem_nil p), List.nodup_nil⟩
    | false =>
      cases hc : compute (joinSp us) with
      | none =>
        have : predict_diseases D compute us = [] := by
          unfold predict_diseases
          rw [hemp, hc]
          rfl
        rw [this]
        exact ⟨fun p hp => absurd hp (List.not_mem_nil p), List.nodup_nil⟩
      | some sims =>
        have heq : predict_diseases D compute us =
            (sortDesc ((D.zip sims).filter
              (fun p => decide ((1 : ℚ)/10 < p.2)))).take 5 := by
          unfold predict_diseases
          rw [hemp, hc]
          rfl
        set filtered := (D.zip sims).filter (fun p => decide ((1 : ℚ)/10 < p.2))
        constructor
        · intro p hp
          rw [heq] at hp
          have hp1 : p ∈ filtered :=
            (sortDesc_perm filtered).subset ((List.take_sublist 5 _).subset hp)
          have hp2 : p ∈ D.zip sims := (List.mem_filter.mp hp1).1
          obtain ⟨a, b⟩ := p
          exact (List.of_mem_zip hp2).1
        · rw [heq]
          have s1 : List.Sublist (filtered.map (fun p => p.1))
              ((D.zip sims).map (fun p => p.1)) :=
            (List.filter_sublist _).map _
          have s2 : List.Sublist ((D.zip sims).map (fun p => p.1)) D := by
            have := map_fst_zip_sublist D sims
            simpa [Function.comp] using this
          have hnf : (filtered.map (fun p => p.1)).Nodup :=
            (s1.trans s2).nodup hD
          have hperm : List.Perm ((sortDesc filtered).map (fun p => p.1))
              (filtered.map (fun p => p.1)) :=
            (sortDesc_perm filtered).map _
          have hns : ((sortDesc filtered).map (fun p => p.1)).Nodup :=
            hperm.symm.nodup hnf
          have : List.Sublist
              (((sortDesc filtered).take 5).map (fun p => p.1))
              ((sortDesc filtered).map (fun p => p.1)) :=
            (List.take_sublist 5 _).map _
          exact this.nodup hns
  exact hkeys ▸ main P.diseases hnd'

/-- Witness for C10 on a concretely constructed predictor. -/
theorem predict_diseases_keys_C10_witness :
    ((predict_diseases
        (Predictor.mk [("grippe", ⟨some ["fièvre"], some "modérée"⟩)]
          ["grippe"] ["fièvre"]).diseases
        (fun _ => some [1]) ["toux"]).map (fun p => p.1)).Nodup :=
  (predict_diseases_keys_C10
    (fun _ => some "kb") (fun _ => some [("grippe", ⟨some ["fièvre"], some "modérée"⟩)])
    "data/symptoms_diseases.json"
    (Predictor.mk [("grippe", ⟨some ["fièvre"], some "modérée"⟩)]
      ["grippe"] ["fièvre"])
    rfl (by decide) (fun _ => some [1]) ["toux"]).2

/-- C4 counterexample: a truthy non-string input (the integer `5`)
passes the `if not text` guard and the non-string-tolerant
`preprocess_text`, then raises `AttributeError` at `text.lower()` —
so `extract_symptoms` does not return an empty result on every
non-string input; it raises. -/
theorem extract_symptoms_nonstring_raises_C4 :
    extract_symptoms (fun _ => []) (fun _ _ => false) (PyVal.vint 5) =
      Except.error "AttributeError" := rfl

/-- C4 (amended): for every string input `extract_symptoms` returns
normally and its result has no duplicate labels, and every falsy input
(empty string, `None`, zero) yields an empty result; only truthy
non-string input escapes this contract (it raises). -/
theorem extract_symptoms_safe_C4 (tok : String → List String)
    (rgx : String → String → Bool) :
    (∀ s : String, ∃ l, extract_symptoms tok rgx (PyVal.vstr s) = Except.ok l
      ∧ l.Nodup)
    ∧ ∀ v : PyVal, truthy v = false → extract_symptoms tok rgx v = Except.ok [] := by
  constructor
  · intro s
    cases hs : s.isEmpty with
    | true =>
      refine ⟨[], ?_, List.nodup_nil⟩
      unfold extract_symptoms
      simp [truthy, hs]
    | false =>
      refine ⟨extract_symptoms_str tok rgx s, ?_, ?_⟩
      · unfold extract_symptoms
        simp [truthy, hs]
      · unfold extract_symptoms_str listSet
        exact List.nodup_dedup _
  · intro v hv
    unfold extract_symptoms
    rw [hv]
    rfl

/-- Witness for C4: `None` input yields `ok []`. -/
theorem extract_symptoms_safe_C4_witness :
    extract_symptoms (fun _ => []) (fun _ _ => false) PyVal.vnone =
      Except.ok [] :=
  (extract_symptoms_safe_C4 (fun _ => []) (fun _ _ => false)).2 PyVal.vnone rfl

end MedTriage
